import Mathlib

/-!
# Verification of the VPinFE score tracker (`src/common/scoretracker.py`)

Shallow embedding of the `ScoreTracker` class: the WebSocket message handler
(`_on_ws_message` and the state it mutates), the submission pipeline
(`submit_score_with_screenshot`) and the screenshot-target selection
(`_capture_screenshot`).  Python dictionaries are modelled as association
lists with insertion-order semantics, Python strings as Lean `String`s, and
the out-of-process effects (network, screen capture, clock) as explicit
parameters of the corresponding functions.
-/

namespace ScoreTracker

/-! ## Python string primitives used by the tracker -/

/-- Python whitespace characters stripped by `str.strip()` / `int()`
(ASCII subset, which is all the tracker ever feeds in). -/
def pyWS (c : Char) : Bool :=
  c = ' ' || c = '\t' || c = '\n' || c = '\r' || c = '\x0b' || c = '\x0c'

/-- `str.strip()`: drop leading and trailing whitespace. -/
def stripWS (s : String) : String :=
  String.mk (((s.data.dropWhile pyWS).reverse.dropWhile pyWS).reverse)

/-- `str.lstrip('0')`: drop leading `'0'` characters. -/
def lstrip0 (s : String) : String :=
  String.mk (s.data.dropWhile (fun c => c = '0'))

/-- `str.replace(',', '').replace('.', '')`: delete every comma and dot
(the replacement string is empty, so this is a character filter). -/
def removeSeps (s : String) : String :=
  String.mk (s.data.filter (fun c => c ≠ ',' && c ≠ '.'))

/-- `str.replace('Z', '')`: delete every `'Z'` character. -/
def removeZ (s : String) : String :=
  String.mk (s.data.filter (fun c => c ≠ 'Z'))

/-- Value of a decimal digit character, `none` on a non-digit. -/
def digitVal (c : Char) : Option Nat :=
  if '0' ≤ c && c ≤ '9' then some (c.toNat - '0'.toNat) else none

/-- Digit body of a Python integer literal after the first digit:
further digits, optionally separated by single underscores. -/
def pyIntGo (acc : Nat) : List Char → Option Nat
  | [] => some acc
  | '_' :: c :: rest =>
    match digitVal c with
    | some d => pyIntGo (acc * 10 + d) rest
    | none => none
  | '_' :: [] => none
  | c :: rest =>
    match digitVal c with
    | some d => pyIntGo (acc * 10 + d) rest
    | none => none

/-- Unsigned digit sequence of `int()`: at least one digit, single
underscores allowed between digits. -/
def pyIntBody : List Char → Option Nat
  | [] => none
  | c :: rest =>
    match digitVal c with
    | some d => pyIntGo d rest
    | none => none

/-- Python `int(s)` in base 10: optional surrounding whitespace, optional
sign, then digits with optional single underscore separators; `none`
models the `ValueError` raised on anything else. -/
def pyInt (s : String) : Option Int :=
  match (stripWS s).data with
  | '+' :: rest => (pyIntBody rest).map (fun n => (n : Int))
  | '-' :: rest => (pyIntBody rest).map (fun n => -(n : Int))
  | rest => (pyIntBody rest).map (fun n => (n : Int))

/-! ## Score values and score parsing -/

/-- A raw score value as found in a decoded JSON payload: either a string
or an integer (`p_data.get('score', 0)` defaults a missing field to the
integer `0`). -/
inductive RawScore where
  | s (v : String)
  | i (v : Int)
  deriving DecidableEq, Repr

/-- Python `str()` applied to a raw score. -/
def rawStr : RawScore → String
  | .s v => v
  | .i v => toString v

/-- The tracker's score normalisation
`int(str(raw_score).replace(',', '').replace('.', '').lstrip('0') or 0)`:
strip separators and leading zeros, map the empty result to `0`, and
parse with `int()`; `none` models the exception swallowed by the
surrounding `try`/`except` (entry skipped). -/
def parseScorePy (r : RawScore) : Option Int :=
  let t := lstrip0 (removeSeps (rawStr r))
  if t = "" then some 0 else pyInt t

/-- One step of the best-score loop: `if score > best_score: best_score
= score`, with parse failures skipped by the `except: pass`. -/
def bestStep (b : Int) (r : RawScore) : Int :=
  match parseScorePy r with
  | none => b
  | some v => if b < v then v else b

/-- The best-score loop of `_on_ws_message`, starting from
`best_score = 0`. -/
def bestFold (l : List RawScore) : Int :=
  l.foldl bestStep 0

/-- Specification-side definition of the same quantity: the maximum of
the successfully parsed numeric scores (and `0`).  The claims compare the
loop above against this. -/
def maxParsedScore (l : List RawScore) : Int :=
  (l.filterMap parseScorePy).foldl max 0

theorem bestFold_aux (l : List RawScore) (b : Int) :
    l.foldl bestStep b = (l.filterMap parseScorePy).foldl max b := by
  induction l generalizing b with
  | nil => rfl
  | cons a t ih =>
    simp only [List.foldl_cons, List.filterMap_cons]
    cases h : parseScorePy a with
    | none => simp [bestStep, h, ih]
    | some v =>
      have hstep : bestStep b a = max b v := by
        simp only [bestStep, h]
        rcases lt_or_ge b v with hlt | hge
        · simp [hlt, max_eq_right (le_of_lt hlt)]
        · simp [not_lt.mpr hge, max_eq_left hge]
      simp [hstep, ih]

theorem bestFold_eq_maxParsedScore (l : List RawScore) :
    bestFold l = maxParsedScore l :=
  bestFold_aux l 0

/-! ## Timestamp parsing (`datetime.strptime(..., '%Y-%m-%dT%H:%M:%S.%f')`)

The staleness filter compares the parsed message timestamp against the
connection epoch with `datetime.<`, which is lexicographic on
`(year, month, day, hour, minute, second, microsecond)`.  We encode a
parsed datetime as a single `Nat` key that is strictly monotone in that
lexicographic order (every coefficient strictly bounds its field: month
≤ 12 < 13, day ≤ 31 < 32, hour ≤ 23 < 24, minute/second ≤ 59 < 60,
microsecond < 1000000), so `<` on keys coincides with `datetime.<`. -/

/-- Read greedily up to `maxN` decimal digits, returning the value read,
how many digits were consumed, and the rest of the input.  This mirrors
the CPython `_strptime` regular expression: each numeric directive
matches a maximal 1-or-2 digit (1-to-6 for `%f`) run, and the fixed
separators of the format anchor every field, so the greedy read is
exact. -/
def readRun (acc cnt : Nat) : Nat → List Char → Nat × Nat × List Char
  | 0, cs => (acc, cnt, cs)
  | n + 1, cs =>
    match cs with
    | [] => (acc, cnt, [])
    | c :: rest =>
      match digitVal c with
      | some d => readRun (acc * 10 + d) (cnt + 1) n rest
      | none => (acc, cnt, c :: rest)

/-- Consume one expected literal character. -/
def expectCh (c : Char) : List Char → Option (List Char)
  | x :: rest => if x = c then some rest else none
  | [] => none

/-- Read a 1-or-2 digit field and check it lies in `[lo, hi]` (the
digit-class alternations of `_strptime` together with the `datetime`
constructor reduce exactly to these value ranges for this format). -/
def readField (lo hi : Nat) (cs : List Char) : Option (Nat × List Char) :=
  let (v, cnt, rest) := readRun 0 0 2 cs
  if cnt = 0 || v < lo || hi < v then none else some (v, rest)

/-- Length of February and friends, Gregorian leap rule as implemented
by `datetime`. -/
def daysInMonth (y m : Nat) : Nat :=
  if m = 2 then
    if y % 4 = 0 && (y % 100 ≠ 0 || y % 400 = 0) then 29 else 28
  else if m = 4 || m = 6 || m = 9 || m = 11 then 30
  else 31

/-- Monotone key of a datetime (see the section comment). -/
def dtKey (y mo d h mi sec us : Nat) : Nat :=
  (((((y * 13 + mo) * 32 + d) * 24 + h) * 60 + mi) * 60 + sec) * 1000000 + us

/-- `datetime.strptime(s, '%Y-%m-%dT%H:%M:%S.%f')`, as an `Option`:
`none` models the `ValueError` path (bad shape, unconverted trailing
data, or a field the `datetime` constructor rejects). -/
def strptimeIso (s : String) : Option Nat := do
  let cs := s.data
  let (y, yc, cs) := readRun 0 0 4 cs
  if yc ≠ 4 || y = 0 then none else
  let cs ← expectCh '-' cs
  let (mo, cs) ← readField 1 12 cs
  let cs ← expectCh '-' cs
  let (d, cs) ← readField 1 31 cs
  if daysInMonth y mo < d then none else
  let cs ← expectCh 'T' cs
  let (h, cs) ← readField 0 23 cs
  let cs ← expectCh ':' cs
  let (mi, cs) ← readField 0 59 cs
  let cs ← expectCh ':' cs
  let (sec, cs) ← readField 0 59 cs
  let cs ← expectCh '.' cs
  let (f, fc, cs) := readRun 0 0 6 cs
  if fc = 0 then none else
  match cs with
  | [] => some (dtKey y mo d h mi sec (f * 10 ^ (6 - fc)))
  | _ :: _ => none

/-! ## Tracker state and decoded messages -/

/-- One entry of the accumulated per-player session map:
`{'score': p_score, 'ball': data.get('current_ball')}`. -/
structure PlayerState where
  score : RawScore
  ball : Option Int
  deriving DecidableEq, Repr

/-- The `self.last_score` dictionary (the spec's PendingScore):
`{'rom_name': ..., 'score': ..., 'timestamp': ...}`, each field `None`
in the empty state. -/
structure PendingScore where
  rom_name : Option String
  score : Option Int
  timestamp : Option Nat
  deriving DecidableEq, Repr

/-- The empty (initial and post-submission) PendingScore. -/
def emptyPending : PendingScore := ⟨none, none, none⟩

/-- The mutable state of `ScoreTracker` touched by the message handler
and the submission pipeline.  Python dicts become association lists with
insertion-order semantics; `_last_game_end` stores `time.time()` values
and `_ws_connected_at` the `dtKey` encoding of `datetime.utcnow()`. -/
structure TrackerState where
  sessions : List (String × List (String × PlayerState))
  lastGameEnd : List (String × Nat)
  lastScore : PendingScore
  wsConnectedAt : Option Nat
  deriving DecidableEq, Repr

/-- The state built by `__init__`. -/
def initState : TrackerState := ⟨[], [], emptyPending, none⟩

/-- A decoded inbound message, with the `dict.get` defaults of
`_on_ws_message` already applied: a missing `timestamp` is `''`, a
missing `rom` is `'unknown_rom'`, missing `type`/`reason` are `''`, a
missing `scores` list is `[]`. -/
structure ScoreEntry where
  player : String
  score : RawScore
  deriving DecidableEq, Repr

structure Msg where
  timestamp : String
  rom : String
  type : String
  reason : String
  scores : List ScoreEntry
  current_ball : Option Int
  deriving DecidableEq, Repr

/-! ## Dictionary operations (Python `dict` on association lists) -/

/-- `d.get(k)` / `k in d`. -/
def dget {α : Type} : List (String × α) → String → Option α
  | [], _ => none
  | (k', v) :: t, k => if k' = k then some v else dget t k

/-- `d[k] = v`: update in place if present, else append (insertion
order). -/
def dset {α : Type} : List (String × α) → String → α → List (String × α)
  | [], k, v => [(k, v)]
  | (k', v') :: t, k, v =>
    if k' = k then (k, v) :: t else (k', v') :: dset t k v

/-- `d.pop(k, None)`: remove the binding for `k` (association lists
built by `dset`/`dpop` have unique keys, so filtering equals removing
the single binding). -/
def dpop {α : Type} (d : List (String × α)) (k : String) : List (String × α) :=
  d.filter (fun kv => kv.1 ≠ k)

/-! ## Player-label normalisation (`current_scores` handling) -/

/-- Is `pat` an initial segment of the second list? -/
def leadsWith : List Char → List Char → Bool
  | [], _ => true
  | _ :: _, [] => false
  | a :: as, b :: bs => a = b && leadsWith as bs

/-- Python `pat in s` (substring containment). -/
def containsSubL (pat : List Char) : List Char → Bool
  | [] => leadsWith pat []
  | c :: rest => leadsWith pat (c :: rest) || containsSubL pat rest

/-- Python `s.replace(pat, '')`: delete every (left-to-right,
non-overlapping) occurrence of `pat`.  `replace('', '')` is the
identity. -/
def removeSub : List Char → List Char → List Char
  | _, [] => []
  | [], c :: rest => c :: removeSub [] rest
  | p :: ps, c :: rest =>
    if leadsWith (p :: ps) (c :: rest) then removeSub (p :: ps) (rest.drop ps.length)
    else c :: removeSub (p :: ps) rest
termination_by _ l => l.length
decreasing_by
  all_goals simp [List.length_drop]
  omega

/-- `p_label.replace("Player", "").strip() if "Player" in p_label else
p_label`: the player-slot identifier under which a score update is
stored. -/
def playerSlot (label : String) : String :=
  if containsSubL "Player".data label.data then
    stripWS (String.mk (removeSub "Player".data label.data))
  else label

/-! ## The message handler `_on_ws_message` -/

/-- The `table_loaded` / `game_start` branch:
`game_session_data[rom] = {}` and `_last_game_end.pop(rom, None)`. -/
def handleStart (st : TrackerState) (rom : String) : TrackerState :=
  { st with
    sessions := dset st.sessions rom [],
    lastGameEnd := dpop st.lastGameEnd rom }

/-- Raw score values of the accumulated session for `rom` (the
`p_data.get('score', 0)` of each stored player entry), in insertion
order. -/
def sessionScores (st : TrackerState) (rom : String) : List RawScore :=
  ((dget st.sessions rom).getD []).map (fun kv => kv.2.score)

/-- The `best_score` computed on `game_end`: prefer the `scores` list of
the payload when non-empty, else the accumulated session data.  The
source's `elif rom in session and session[rom]` / bare `else` branches
both yield `best_score = 0` exactly when the session list is missing or
empty, which is `bestFold [] = 0`, so they collapse into one fold. -/
def endBest (st : TrackerState) (m : Msg) : Int :=
  if m.scores ≠ [] then bestFold (m.scores.map (fun e => e.score))
  else bestFold (sessionScores st m.rom)

/-- The `game_end` branch.  `now` is `time.time()`, `dnow` is
`datetime.now()` (the value stored into `last_score['timestamp']`).
The automatic-submission thread spawned in the `best_score > 0` case
does not touch the tracker state inside the handler and is therefore
not part of the state transition. -/
def handleEnd (st : TrackerState) (m : Msg) (now dnow : Nat) : TrackerState :=
  if m.reason = "plugin_unload" then
    { st with sessions := dpop st.sessions m.rom }
  else if now < (dget st.lastGameEnd m.rom).getD 0 + 10 then st
  else
    let best := endBest st m
    { st with
      lastGameEnd := dset st.lastGameEnd m.rom now,
      lastScore :=
        if 0 < best then ⟨some m.rom, some best, some dnow⟩ else st.lastScore,
      sessions := dpop st.sessions m.rom }

/-- The `current_scores` branch: ensure a session dict exists for `rom`,
then upsert `{score, ball}` under the normalised slot of each entry. -/
def handleCurrentScores (st : TrackerState) (m : Msg) : TrackerState :=
  { st with
    sessions :=
      dset st.sessions m.rom
        (m.scores.foldl
          (fun sess e => dset sess (playerSlot e.player) ⟨e.score, m.current_ball⟩)
          ((dget st.sessions m.rom).getD [])) }

/-- `_on_ws_message` after the staleness filter: dispatch on
`data.get('type', '')`. -/
def handleCore (st : TrackerState) (m : Msg) (now dnow : Nat) : TrackerState :=
  if m.type = "table_loaded" || m.type = "game_start" then handleStart st m.rom
  else if m.type = "game_end" then handleEnd st m now dnow
  else if m.type = "current_scores" then handleCurrentScores st m
  else st

/-- The staleness filter of `_on_ws_message`: drop when a non-empty
`timestamp` field parses (after `replace('Z', '')`) to a datetime
strictly before the connection epoch; a parse failure (`ValueError`) is
swallowed and the message processed normally. -/
def staleDrop (st : TrackerState) (m : Msg) : Bool :=
  m.timestamp ≠ "" &&
    match st.wsConnectedAt with
    | none => false
    | some e =>
      match strptimeIso (removeZ m.timestamp) with
      | none => false
      | some t => t < e

/-- `_on_ws_message` on a successfully decoded message. -/
def handleMessage (st : TrackerState) (m : Msg) (now dnow : Nat) : TrackerState :=
  if staleDrop st m then st else handleCore st m now dnow

/-- `_on_ws_open`: record the connection epoch. -/
def onWsOpen (st : TrackerState) (epoch : Nat) : TrackerState :=
  { st with wsConnectedAt := some epoch }

/-! ## Screenshot target selection (`_capture_screenshot`) -/

/-- What `_capture_screenshot` ends up grabbing: the primary screen
(`ImageGrab.grab()` with no bbox), the bounding box of `monitors[i]`, or
`None` (the `except` path: unparseable configured id, or an
`IndexError` from a too-negative index). -/
inductive CaptureChoice where
  | primary
  | monitorIdx (i : Nat)
  | failure
  deriving DecidableEq, Repr

/-- `monitors[screen_id]` guarded by `screen_id < len(monitors)`:
non-negative indices in range are taken directly, negative indices use
Python indexing from the end, and a negative index before the start of
the list raises `IndexError` (caught, yielding `None`).  Indices `≥ len`
fall through to the primary grab. -/
def pickMonitor (i : Int) (n : Nat) : CaptureChoice :=
  if i < (n : Int) then
    if 0 ≤ i then .monitorIdx i.toNat
    else if 0 ≤ (n : Int) + i then .monitorIdx ((n : Int) + i).toNat
    else .failure
  else .primary

/-- `_capture_screenshot`, as a function of the two stripped display-id
configuration strings and the number of monitors.  An id string that
`int()` rejects raises inside the `try`, yielding `None`. -/
def captureScreenshot (dmdscreenid bgscreenid : String) (n : Nat) : CaptureChoice :=
  let dmd := stripWS dmdscreenid
  let bg := stripWS bgscreenid
  if dmd ≠ "" then
    match pyInt dmd with
    | none => .failure
    | some i => pickMonitor i n
  else if bg ≠ "" then
    match pyInt bg with
    | none => .failure
    | some i => pickMonitor i n
  else .primary

/-! ## The submission pipeline (`submit_score_with_screenshot`) -/

/-- `f'\x7bn:,\x7d'` on a natural number: decimal digits in groups of
three separated by commas.  `goC` walks the reversed digit list,
emitting a comma after every third digit that is not the last. -/
def goC : List Char → Nat → List Char
  | [], _ => []
  | c :: cs, k =>
    if k = 2 then
      match cs with
      | [] => [c]
      | _ :: _ => c :: ',' :: goC cs 0
    else c :: goC cs (k + 1)

def fmtCommaNat (n : Nat) : String :=
  String.mk ((goC (toString n).data.reverse 0).reverse)

/-- Python `f'\x7bn:,\x7d'` for integers. -/
def fmtComma (n : Int) : String :=
  if n < 0 then "-" ++ fmtCommaNat n.natAbs else fmtCommaNat n.toNat

/-- `str(e)[:50]`: truncate an error string to 50 characters. -/
def truncate50 (s : String) : String :=
  String.mk (s.data.take 50)

/-- The leaderboard configuration fields `submit_score_with_screenshot`
reads from `get_config()`. -/
structure SubmitConfig where
  api_url : String
  api_key : String
  machine_id : String
  deriving DecidableEq, Repr

/-- The decoded JSON body of the server response (`response.json()`
succeeded).  `success` is the truthiness of `result.get('success')`
(absent or false both `false`); `tableName` and `error` are optional
strings. -/
structure RespBody where
  success : Bool
  tableName : Option String
  error : Option String
  deriving DecidableEq, Repr

/-- The HTTP response, when `requests.post` returned at all; `body =
none` models a body `response.json()` cannot decode. -/
structure Resp where
  status : Nat
  body : Option RespBody
  deriving DecidableEq, Repr

/-- The environment a single submission attempt runs against:
`captureOk` is whether `_capture_screenshot` returned an image, and
`response = none` models `requests.post` raising (connection error /
timeout). -/
structure SubmitEnv where
  captureOk : Bool
  response : Option Resp
  deriving DecidableEq, Repr

/-- Outcome of `submit_score_with_screenshot`: the state after the call,
the `(title, message)` passed to the notification callback (every path
of the source notifies exactly once), and whether `requests.post` was
reached. -/
structure SubmitResult where
  state : TrackerState
  notifTitle : String
  notifMsg : String
  requestIssued : Bool
  deriving DecidableEq, Repr

/-- `submit_score_with_screenshot`.  Control flow of the source:
falsy `last_score['rom_name']` (None or `''`) → "no score"; missing API
url/key → "not configured"; capture `None` → abort; `requests.post`
raising, `raise_for_status()` (status 400–599) or an undecodable body →
`RequestException` handler; truthy `success` → format, notify and clear
`last_score`; falsy `success` → `raise Exception(error)` caught by the
generic handler.  A `success` response with `last_score['score']` unset
would raise inside the f-string formatting before the clear, landing in
the generic handler (state unchanged).  The exception texts interpolated
into the failure messages are abstracted to the fixed message parts the
source concatenates them after. -/
def submitScoreWithScreenshot (st : TrackerState) (cfg : SubmitConfig)
    (env : SubmitEnv) : SubmitResult :=
  match st.lastScore.rom_name with
  | none => ⟨st, "Error", "No score available!\nPlay a game first.", false⟩
  | some rom =>
    if rom = "" then ⟨st, "Error", "No score available!\nPlay a game first.", false⟩
    else if cfg.api_url = "" || cfg.api_key = "" then
      ⟨st, "Error", "Leaderboard not configured!", false⟩
    else if env.captureOk = false then
      ⟨st, "Error", "Failed to capture screenshot", false⟩
    else
      match env.response with
      | none => ⟨st, "Error", "Failed to submit:\n", true⟩
      | some resp =>
        if 400 ≤ resp.status && resp.status < 600 then
          ⟨st, "Error", "Failed to submit:\n", true⟩
        else
          match resp.body with
          | none => ⟨st, "Error", "Failed to submit:\n", true⟩
          | some body =>
            if body.success then
              match st.lastScore.score with
              | none => ⟨st, "Error", "Submission failed:\n", true⟩
              | some sc =>
                ⟨{ st with lastScore := emptyPending },
                  "Score Submitted!",
                  "Table: " ++ body.tableName.getD rom ++ "\nScore: " ++ fmtComma sc,
                  true⟩
            else
              ⟨st, "Error",
                "Submission failed:\n" ++ truncate50 (body.error.getD "Unknown error"),
                true⟩

/-! ## Dictionary lemmas -/

theorem dget_dset_self {α : Type} (d : List (String × α)) (k : String) (v : α) :
    dget (dset d k v) k = some v := by
  induction d with
  | nil => simp [dset, dget]
  | cons kv t ih =>
    by_cases h : kv.1 = k
    · simp [dset, dget, h]
    · simp [dset, dget, h, ih]

theorem dget_dset_ne {α : Type} (d : List (String × α)) (k k' : String) (v : α)
    (h : k' ≠ k) : dget (dset d k v) k' = dget d k' := by
  have h' : k ≠ k' := fun hh => h hh.symm
  induction d with
  | nil => simp [dset, dget, h']
  | cons kv t ih =>
    obtain ⟨a, b⟩ := kv
    by_cases hk : a = k
    · have ha : a ≠ k' := by rw [hk]; exact h'
      simp [dset, dget, hk, h', ha]
    · by_cases hk' : a = k'
      · simp [dset, dget, hk, hk', h]
      · simp [dset, dget, hk, hk', ih]

theorem dget_dpop_self {α : Type} (d : List (String × α)) (k : String) :
    dget (dpop d k) k = none := by
  induction d with
  | nil => simp [dpop, dget]
  | cons kv t ih =>
    by_cases h : kv.1 = k
    · simpa [dpop, List.filter, h] using ih
    · simpa [dpop, List.filter, h, dget] using ih

theorem dget_dpop_ne {α : Type} (d : List (String × α)) (k k' : String)
    (h : k' ≠ k) : dget (dpop d k) k' = dget d k' := by
  induction d with
  | nil => rfl
  | cons kv t ih =>
    obtain ⟨a, b⟩ := kv
    by_cases hk : a = k
    · have ha : ¬a = k' := by rw [hk]; exact fun hh => h hh.symm
      have h1 : dpop ((a, b) :: t) k = dpop t k := by
        simp [dpop, List.filter_cons, hk]
      rw [h1, ih]
      simp only [dget]
      simp [ha]
    · have h1 : dpop ((a, b) :: t) k = (a, b) :: dpop t k := by
        simp [dpop, List.filter_cons, hk]
      rw [h1]
      simp only [dget]
      rw [ih]

/-! ## Claim theorems -/

/-- C6: the score-parsing step removes thousands separators and decimal
points and leading zeros before integer conversion: `"1,234,500"` parses
to `1234500`, `"000450"` to `450`, the empty string to `0`, and a
non-numeric input raises and is skipped, contributing nothing to the
best-score fold. -/
theorem score_parsing_examples :
    parseScorePy (.s "1,234,500") = some 1234500 ∧
    parseScorePy (.s "000450") = some 450 ∧
    parseScorePy (.s "") = some 0 ∧
    parseScorePy (.s "abc") = none ∧
    bestFold [.s "abc", .s "5"] = 5 ∧
    bestFold [.s "abc"] = 0 := by
  refine ⟨rfl, rfl, rfl, rfl, ?_, ?_⟩ <;> decide

/-- C2: a `game_end` (reason not `plugin_unload`) arriving strictly less
than 10 seconds after the recorded last accepted end for the same rom is
rejected: the handler returns with the whole state — sessions, debounce
record and PendingScore — unchanged.  (This holds whether or not the
message passes the staleness filter, since a stale message also leaves
the state untouched.) -/
theorem game_end_debounce_rejected (st : TrackerState) (m : Msg)
    (now dnow t : Nat) (htype : m.type = "game_end")
    (hreason : m.reason ≠ "plugin_unload")
    (hlast : dget st.lastGameEnd m.rom = some t) (hlt : now < t + 10) :
    handleMessage st m now dnow = st := by
  unfold handleMessage
  split
  · rfl
  · simp [handleCore, htype, handleEnd, hreason, hlast, hlt]

theorem game_end_debounce_rejected_witness :
    handleMessage ⟨[], [("t1", 50)], emptyPending, none⟩
      ⟨"", "t1", "game_end", "", [⟨"", .s "999"⟩], none⟩ 55 9 =
      ⟨[], [("t1", 50)], emptyPending, none⟩ :=
  game_end_debounce_rejected _ _ 55 9 50 rfl (by decide) (by decide) (by decide)

/-- C3: a non-stale `game_end` with reason `plugin_unload` finalizes
nothing: PendingScore and the debounce record are unchanged and the
session for the rom is removed. -/
theorem game_end_plugin_unload (st : TrackerState) (m : Msg) (now dnow : Nat)
    (htype : m.type = "game_end") (hreason : m.reason = "plugin_unload")
    (hstale : staleDrop st m = false) :
    (handleMessage st m now dnow).lastScore = st.lastScore ∧
    (handleMessage st m now dnow).lastGameEnd = st.lastGameEnd ∧
    dget (handleMessage st m now dnow).sessions m.rom = none := by
  have hm : handleMessage st m now dnow =
      { st with sessions := dpop st.sessions m.rom } := by
    unfold handleMessage
    rw [if_neg (by simp [hstale])]
    simp [handleCore, htype, handleEnd, hreason]
  rw [hm]
  exact ⟨rfl, rfl, dget_dpop_self _ _⟩

theorem game_end_plugin_unload_witness :
    (handleMessage ⟨[("t2", [("1", ⟨.s "500", none⟩)])], [], emptyPending, none⟩
        ⟨"", "t2", "game_end", "plugin_unload", [], none⟩ 100 9).lastScore =
        emptyPending ∧
      dget (handleMessage ⟨[("t2", [("1", ⟨.s "500", none⟩)])], [], emptyPending, none⟩
        ⟨"", "t2", "game_end", "plugin_unload", [], none⟩ 100 9).sessions "t2" = none := by
  have h := game_end_plugin_unload
    ⟨[("t2", [("1", ⟨.s "500", none⟩)])], [], emptyPending, none⟩
    ⟨"", "t2", "game_end", "plugin_unload", [], none⟩ 100 9 rfl rfl (by decide)
  exact ⟨h.1, h.2.2⟩

/-- C7: a non-stale `table_loaded` / `game_start` message replaces the
rom's session with an empty player map and clears its debounce entry,
leaving the sessions and debounce entries of every other rom (and
PendingScore) unchanged. -/
theorem game_start_resets (st : TrackerState) (m : Msg) (now dnow : Nat)
    (htype : m.type = "table_loaded" ∨ m.type = "game_start")
    (hstale : staleDrop st m = false) :
    dget (handleMessage st m now dnow).sessions m.rom = some [] ∧
    dget (handleMessage st m now dnow).lastGameEnd m.rom = none ∧
    (∀ r, r ≠ m.rom → dget (handleMessage st m now dnow).sessions r =
      dget st.sessions r) ∧
    (∀ r, r ≠ m.rom → dget (handleMessage st m now dnow).lastGameEnd r =
      dget st.lastGameEnd r) ∧
    (handleMessage st m now dnow).lastScore = st.lastScore := by
  have hm : handleMessage st m now dnow = handleStart st m.rom := by
    rcases htype with h | h <;>
      simp [handleMessage, hstale, handleCore, h]
  rw [hm]
  exact ⟨dget_dset_self _ _ _, dget_dpop_self _ _,
    fun r hr => dget_dset_ne _ _ _ _ hr,
    fun r hr => dget_dpop_ne _ _ _ hr, rfl⟩

theorem game_start_resets_witness :
    dget (handleMessage ⟨[("t3", [("1", ⟨.s "500", none⟩)])], [("t3", 90)],
        emptyPending, none⟩
      ⟨"", "t3", "game_start", "", [], none⟩ 95 9).sessions "t3" = some [] ∧
    dget (handleMessage ⟨[("t3", [("1", ⟨.s "500", none⟩)])], [("t3", 90)],
        emptyPending, none⟩
      ⟨"", "t3", "game_start", "", [], none⟩ 95 9).lastGameEnd "t3" = none := by
  have h := game_start_resets
    ⟨[("t3", [("1", ⟨.s "500", none⟩)])], [("t3", 90)], emptyPending, none⟩
    ⟨"", "t3", "game_start", "", [], none⟩ 95 9 (Or.inr rfl) (by decide)
  exact ⟨h.1, h.2.1⟩

/-- C8: a message carrying a timestamp that parses (after deleting `'Z'`
characters, as the source does) to a datetime strictly before the
recorded connection epoch is dropped: the handler returns the state
unchanged. -/
theorem stale_message_dropped (st : TrackerState) (m : Msg) (now dnow t e : Nat)
    (hne : m.timestamp ≠ "") (hepoch : st.wsConnectedAt = some e)
    (hparse : strptimeIso (removeZ m.timestamp) = some t) (hlt : t < e) :
    handleMessage st m now dnow = st := by
  have hstale : staleDrop st m = true := by
    simp [staleDrop, hne, hepoch, hparse, hlt]
  simp [handleMessage, hstale]

def c8ts : String := "2020-01-01T00:00:00.000Z"

def c8t : Nat := (strptimeIso (removeZ c8ts)).getD 0

def c8st : TrackerState := ⟨[], [], emptyPending, some (c8t + 1)⟩

def c8msg : Msg := ⟨c8ts, "t4", "game_start", "", [], none⟩

theorem stale_message_dropped_witness :
    handleMessage c8st c8msg 0 0 = c8st :=
  stale_message_dropped c8st c8msg 0 0 c8t (c8t + 1) (by decide) rfl
    (by decide) (Nat.lt_succ_self c8t)

/-- C1: an accepted `game_end` (reason not `plugin_unload`, not stale,
not debounce-rejected) finalizes the maximum of the numeric scores
parsed from the payload `scores` list when it is non-empty, and
otherwise from the accumulated session data for the rom; entries whose
score fails to parse are skipped (`maxParsedScore` ranges over the
successful parses only).  When that maximum is not positive,
PendingScore is left unchanged. -/
theorem game_end_best_score (st : TrackerState) (m : Msg) (now dnow : Nat)
    (htype : m.type = "game_end") (hreason : m.reason ≠ "plugin_unload")
    (hstale : staleDrop st m = false)
    (hdeb : ¬now < (dget st.lastGameEnd m.rom).getD 0 + 10) :
    (handleMessage st m now dnow).lastScore =
      if 0 < maxParsedScore (if m.scores ≠ [] then
          m.scores.map (fun e => e.score) else sessionScores st m.rom) then
        ⟨some m.rom,
          some (maxParsedScore (if m.scores ≠ [] then
            m.scores.map (fun e => e.score) else sessionScores st m.rom)),
          some dnow⟩
      else st.lastScore := by
  have hbest : endBest st m =
      maxParsedScore (if m.scores ≠ [] then
        m.scores.map (fun e => e.score) else sessionScores st m.rom) := by
    unfold endBest
    by_cases h : m.scores = []
    · rw [if_neg (by simpa using h), if_neg (by simpa using h),
        bestFold_eq_maxParsedScore]
    · rw [if_pos h, if_pos h, bestFold_eq_maxParsedScore]
  have hm : handleMessage st m now dnow = handleEnd st m now dnow := by
    unfold handleMessage
    rw [if_neg (by simp [hstale])]
    simp [handleCore, htype]
  rw [hm]
  unfold handleEnd
  rw [if_neg hreason, if_neg hdeb, ← hbest]

theorem game_end_best_score_witness :
    (handleMessage ⟨[], [], emptyPending, none⟩
      ⟨"", "t1", "game_end", "",
        [⟨"Player1", .s "10,000"⟩, ⟨"Player2", .s "25,500"⟩], none⟩
      100 5).lastScore = ⟨some "t1", some 25500, some 5⟩ := by
  have h := game_end_best_score ⟨[], [], emptyPending, none⟩
    ⟨"", "t1", "game_end", "",
      [⟨"Player1", .s "10,000"⟩, ⟨"Player2", .s "25,500"⟩], none⟩
    100 5 rfl (by decide) (by decide) (by decide)
  rw [h]
  decide

/-- The timestamp-normalisation step as worded by the claim for C10:
remove a single trailing `'Z'` (the source instead removes every `'Z'`
with `replace('Z', '')`). -/
def stripTrailingZ (s : String) : String :=
  if s.data.getLast? = some 'Z' then String.mk s.data.dropLast else s

def c10msg : Msg := ⟨"Z2020-01-01T00:00:00.000", "x", "game_start", "", [], none⟩

def c10st : TrackerState := ⟨[], [], emptyPending, some (c8t + 1)⟩

/-- Counterexample to C10 as stated: this message's timestamp is not
parseable after removing a trailing `'Z'` (there is none; the leading
`'Z'` makes the parse fail), so the claim says the staleness filter is
bypassed and the message processed normally — but the source deletes
every `'Z'`, obtains a parseable stale timestamp, and drops the
message: the `game_start` has no effect on the state. -/
theorem stale_filter_z_counterexample :
    strptimeIso (stripTrailingZ c10msg.timestamp) = none ∧
    handleMessage c10st c10msg 0 0 = c10st ∧
    handleCore c10st c10msg 0 0 ≠ c10st := by
  refine ⟨by decide, by decide, by decide⟩

/-- C10 (amended: the parse failure that bypasses the filter is of the
timestamp after removing every `'Z'` character, not just a trailing
one): a message with an empty/absent timestamp, or arriving before any
connection epoch exists, or whose timestamp fails to parse, skips the
staleness filter and is processed normally. -/
theorem unparseable_timestamp_bypasses_filter (st : TrackerState) (m : Msg)
    (now dnow : Nat)
    (h : m.timestamp = "" ∨ st.wsConnectedAt = none ∨
      strptimeIso (removeZ m.timestamp) = none) :
    handleMessage st m now dnow = handleCore st m now dnow := by
  have hstale : staleDrop st m = false := by
    rcases h with h | h | h
    · simp [staleDrop, h]
    · simp [staleDrop, h]
    · cases hw : st.wsConnectedAt <;> simp [staleDrop, hw, h]
  simp [handleMessage, hstale]

theorem unparseable_timestamp_bypasses_filter_witness :
    handleMessage c10st ⟨"not-a-date", "t5", "game_start", "", [], none⟩ 0 0 =
      handleCore c10st ⟨"not-a-date", "t5", "game_start", "", [], none⟩ 0 0 :=
  unparseable_timestamp_bypasses_filter c10st
    ⟨"not-a-date", "t5", "game_start", "", [], none⟩ 0 0
    (Or.inr (Or.inr (by decide)))

/-- The PendingScore invariant claimed by the spec: either empty (all
fields unset) or a strictly positive score together with a non-empty
game identifier. -/
def pendingOKb (p : PendingScore) : Bool :=
  match p.rom_name with
  | none => p.score = none && p.timestamp = none
  | some r =>
    r ≠ "" &&
      match p.score with
      | some s => 0 < s
      | none => false

def c5msg : Msg := ⟨"", "", "game_end", "", [⟨"", .s "100"⟩], none⟩

/-- Counterexample to C5 as stated: a `game_end` whose `rom` field is
explicitly the empty string (only an absent field defaults to
`'unknown_rom'`) finalizes a PendingScore whose game identifier is
empty, violating the invariant in a state reachable in one step from
the initial state. -/
theorem pending_invariant_counterexample :
    (handleMessage initState c5msg 100 7).lastScore = ⟨some "", some 100, some 7⟩ ∧
    pendingOKb ⟨some "", some 100, some 7⟩ = false := by
  refine ⟨by decide, by decide⟩

/-- All control paths of the submission pipeline either leave the state
untouched or clear PendingScore to empty. -/
theorem submit_state_cases (st : TrackerState) (cfg : SubmitConfig)
    (env : SubmitEnv) :
    (submitScoreWithScreenshot st cfg env).state = st ∨
    (submitScoreWithScreenshot st cfg env).state =
      { st with lastScore := emptyPending } := by
  unfold submitScoreWithScreenshot
  repeat' split
  all_goals first | exact Or.inl rfl | exact Or.inr rfl

/-- C5 (amended: the invariant additionally needs every processed
message to carry a non-empty game identifier, since a `game_end` with
an explicitly empty `rom` string installs an empty identifier — see the
counterexample): the initial PendingScore is empty, message handling
for messages with a non-empty rom preserves the invariant, and
submission preserves it unconditionally. -/
theorem pending_invariant_amended :
    pendingOKb initState.lastScore = true ∧
    (∀ st m now dnow, m.rom ≠ "" → pendingOKb st.lastScore = true →
      pendingOKb (handleMessage st m now dnow).lastScore = true) ∧
    (∀ st cfg env, pendingOKb st.lastScore = true →
      pendingOKb (submitScoreWithScreenshot st cfg env).state.lastScore = true) := by
  refine ⟨by decide, ?_, ?_⟩
  · intro st m now dnow hrom hok
    unfold handleMessage
    split
    · exact hok
    · unfold handleCore
      split
      · exact hok
      · split
        · unfold handleEnd
          split
          · exact hok
          · split
            · exact hok
            · dsimp only
              by_cases hb : 0 < endBest st m
              · rw [if_pos hb]
                simp [pendingOKb, hrom, hb]
              · rw [if_neg hb]
                exact hok
        · split
          · exact hok
          · exact hok
  · intro st cfg env hok
    rcases submit_state_cases st cfg env with h | h
    · rw [h]; exact hok
    · rw [h]; rfl

theorem pending_invariant_amended_witness :
    pendingOKb (handleMessage initState
      ⟨"", "t6", "game_end", "", [⟨"", .s "42"⟩], none⟩ 100 3).lastScore = true :=
  pending_invariant_amended.2.1 initState
    ⟨"", "t6", "game_end", "", [⟨"", .s "42"⟩], none⟩ 100 3 (by decide) (by decide)

def c4st : TrackerState := ⟨[], [], ⟨some "mm", some 1000, some 0⟩, none⟩

def c4cfg : SubmitConfig := ⟨"http://api", "key", "m1"⟩

def c4env : SubmitEnv := ⟨true, some ⟨302, some ⟨true, none, none⟩⟩⟩

/-- Counterexample to C4 as stated: a response with status 302 — not a
2xx status — whose JSON body carries `success: true` still clears
PendingScore, because `raise_for_status()` only raises for statuses
400–599; the claim's "exactly when ... 2xx status" is therefore false
at this input. -/
theorem submit_clear_counterexample :
    c4env.response = some ⟨302, some ⟨true, none, none⟩⟩ ∧
    ¬(200 ≤ (302 : Nat) ∧ (302 : Nat) < 300) ∧
    (submitScoreWithScreenshot c4st c4cfg c4env).state.lastScore = emptyPending ∧
    c4st.lastScore ≠ emptyPending := by
  refine ⟨rfl, by decide, by decide, by decide⟩

/-- The condition under which the source's submission succeeds: a
non-empty pending rom, configured API url and key, a captured
screenshot, a response whose status does not trigger
`raise_for_status()` (400–599), a decodable JSON body, and a true
`success` field. -/
def submitSuccessCond (st : TrackerState) (cfg : SubmitConfig)
    (env : SubmitEnv) : Prop :=
  (∃ r, st.lastScore.rom_name = some r ∧ r ≠ "") ∧
  cfg.api_url ≠ "" ∧ cfg.api_key ≠ "" ∧ env.captureOk = true ∧
  ∃ resp body, env.response = some resp ∧
    ¬(400 ≤ resp.status ∧ resp.status < 600) ∧
    resp.body = some body ∧ body.success = true

/-- C4 (amended: the response statuses treated as success are those not
raising in `raise_for_status()`, i.e. outside 400–599, rather than
exactly the 2xx range): PendingScore is cleared exactly on a confirmed
success, in which case the notification reports the server table name
(or the rom if absent) and the comma-formatted score; on every other
outcome the state is unchanged, and a violated empty-PendingScore or
missing-configuration precondition means no network request is issued.
The hypothesis `hwf` (a pending score value accompanies a pending rom)
holds in every reachable state. -/
theorem submit_clears_iff (st : TrackerState) (cfg : SubmitConfig)
    (env : SubmitEnv)
    (hwf : ∀ r, st.lastScore.rom_name = some r → r ≠ "" →
      st.lastScore.score ≠ none) :
    ((submitScoreWithScreenshot st cfg env).state =
        { st with lastScore := emptyPending } ∧
        st.lastScore.rom_name ≠ none ↔ submitSuccessCond st cfg env) ∧
    (¬submitSuccessCond st cfg env →
      (submitScoreWithScreenshot st cfg env).state = st) ∧
    ((st.lastScore.rom_name = none ∨ st.lastScore.rom_name = some "" ∨
        cfg.api_url = "" ∨ cfg.api_key = "") →
      (submitScoreWithScreenshot st cfg env).requestIssued = false ∧
      (submitScoreWithScreenshot st cfg env).state = st) ∧
    (∀ r sc resp body, st.lastScore.rom_name = some r → r ≠ "" →
      st.lastScore.score = some sc →
      cfg.api_url ≠ "" → cfg.api_key ≠ "" → env.captureOk = true →
      env.response = some resp → ¬(400 ≤ resp.status ∧ resp.status < 600) →
      resp.body = some body → body.success = true →
      (submitScoreWithScreenshot st cfg env).state =
        { st with lastScore := emptyPending } ∧
      (submitScoreWithScreenshot st cfg env).notifTitle = "Score Submitted!" ∧
      (submitScoreWithScreenshot st cfg env).notifMsg =
        "Table: " ++ body.tableName.getD r ++ "\nScore: " ++ fmtComma sc ∧
      (submitScoreWithScreenshot st cfg env).requestIssued = true) := by
  have hsucc : ∀ r sc resp body, st.lastScore.rom_name = some r → r ≠ "" →
      st.lastScore.score = some sc →
      cfg.api_url ≠ "" → cfg.api_key ≠ "" → env.captureOk = true →
      env.response = some resp → ¬(400 ≤ resp.status ∧ resp.status < 600) →
      resp.body = some body → body.success = true →
      submitScoreWithScreenshot st cfg env =
        ⟨{ st with lastScore := emptyPending }, "Score Submitted!",
          "Table: " ++ body.tableName.getD r ++ "\nScore: " ++ fmtComma sc,
          true⟩ := by
    intro r sc resp body hr hrne hsc hu hk hc hresp hstat hbody hs
    unfold submitScoreWithScreenshot
    rw [hr]
    dsimp only
    rw [if_neg hrne, if_neg (by simp [hu, hk]), if_neg (by simp [hc]), hresp]
    dsimp only
    rw [if_neg (by simpa using hstat), hbody]
    dsimp only
    rw [if_pos hs, hsc]
  have hfail : ¬submitSuccessCond st cfg env →
      (submitScoreWithScreenshot st cfg env).state = st := by
    intro hn
    unfold submitScoreWithScreenshot
    rcases hr : st.lastScore.rom_name with _ | r
    · rfl
    · dsimp only
      by_cases hrne : r = ""
      · rw [if_pos hrne]
      · rw [if_neg hrne]
        by_cases hapi : cfg.api_url = "" ∨ cfg.api_key = ""
        · rw [if_pos (by rcases hapi with h | h <;> simp [h])]
        · rw [if_neg (by simp [not_or] at hapi; simp [hapi.1, hapi.2])]
          rcases hc : env.captureOk with _ | _
          · rw [if_pos rfl]
          · rw [if_neg (by simp)]
            rcases hresp : env.response with _ | resp
            · rfl
            · dsimp only
              by_cases hstat : 400 ≤ resp.status ∧ resp.status < 600
              · rw [if_pos (by simpa using hstat)]
              · rw [if_neg (by simpa using hstat)]
                rcases hbody : resp.body with _ | body
                · rfl
                · dsimp only
                  rcases hs : body.success with _ | _
                  · rw [if_neg (by simp)]
                  · exfalso
                    refine hn ⟨⟨r, hr, hrne⟩, ?_, ?_, hc, resp, body, hresp,
                      hstat, hbody, hs⟩
                    · simp [not_or] at hapi; exact hapi.1
                    · simp [not_or] at hapi; exact hapi.2
  have hpre : (st.lastScore.rom_name = none ∨ st.lastScore.rom_name = some "" ∨
      cfg.api_url = "" ∨ cfg.api_key = "") →
      (submitScoreWithScreenshot st cfg env).requestIssued = false ∧
      (submitScoreWithScreenshot st cfg env).state = st := by
    intro h
    unfold submitScoreWithScreenshot
    rcases hr : st.lastScore.rom_name with _ | r
    · exact ⟨rfl, rfl⟩
    · dsimp only
      by_cases hrne : r = ""
      · rw [if_pos hrne]; exact ⟨rfl, rfl⟩
      · have hapi : cfg.api_url = "" ∨ cfg.api_key = "" := by
          rcases h with h | h | h | h
          · rw [hr] at h; exact absurd h (by simp)
          · rw [hr] at h; simp at h; exact absurd h hrne
          · exact Or.inl h
          · exact Or.inr h
        rw [if_neg hrne, if_pos (by rcases hapi with h' | h' <;> simp [h'])]
        exact ⟨rfl, rfl⟩
  refine ⟨?_, hfail, hpre, ?_⟩
  · constructor
    · intro ⟨hstate, hrom⟩
      by_contra hn
      have h2 := hfail hn
      rw [h2] at hstate
      have : st.lastScore = emptyPending := by
        have := congrArg TrackerState.lastScore hstate
        simpa using this
      rw [this] at hrom
      exact hrom rfl
    · intro hcond
      obtain ⟨⟨r, hr, hrne⟩, hu, hk, hc, resp, body, hresp, hstat, hbody, hs⟩ :=
        hcond
      obtain ⟨sc, hsc⟩ := Option.ne_none_iff_exists'.mp (hwf r hr hrne)
      have := hsucc r sc resp body hr hrne hsc hu hk hc hresp hstat hbody hs
      rw [this]
      exact ⟨rfl, by rw [hr]; simp⟩
  · intro r sc resp body hr hrne hsc hu hk hc hresp hstat hbody hs
    have := hsucc r sc resp body hr hrne hsc hu hk hc hresp hstat hbody hs
    rw [this]
    exact ⟨rfl, rfl, rfl, rfl⟩

theorem submit_clears_iff_witness :
    (submitScoreWithScreenshot ⟨[], [], ⟨some "mm", some 25500, some 0⟩, none⟩
      ⟨"http://api", "key", "m1"⟩
      ⟨true, some ⟨200, some ⟨true, some "Medieval Madness", none⟩⟩⟩).notifMsg =
      "Table: Medieval Madness\nScore: 25,500" := by
  have h := (submit_clears_iff ⟨[], [], ⟨some "mm", some 25500, some 0⟩, none⟩
    ⟨"http://api", "key", "m1"⟩
    ⟨true, some ⟨200, some ⟨true, some "Medieval Madness", none⟩⟩⟩
    (by intro r hr hrne; simp)).2.2.2 "mm" 25500
    ⟨200, some ⟨true, some "Medieval Madness", none⟩⟩
    ⟨true, some "Medieval Madness", none⟩ rfl (by decide) rfl (by decide)
    (by decide) rfl rfl (by decide) rfl rfl
  rw [h.2.2.1]
  decide

/-- Counterexample to C9 as stated: with two monitors, a configured DMD
display id of `-5` is out of range of the monitor list, yet capture does
not fall back to the primary display — `monitors[-5]` raises
`IndexError` inside the `try`, so capture fails and returns `None`
(the guard is `screen_id < len(monitors)`, which negative ids pass). -/
theorem capture_out_of_range_counterexample :
    captureScreenshot "-5" "" 2 = CaptureChoice.failure ∧
    ¬(0 ≤ (-5 : Int) ∧ (-5 : Int) < 2) ∧
    CaptureChoice.failure ≠ CaptureChoice.primary := by
  refine ⟨by decide, by decide, by decide⟩

/-- C9 (amended: only a configured id at least the number of monitors
falls back to the primary display; a negative configured id instead
indexes the monitor list from its end, raising — and so failing the
capture — when it precedes the start of the list): the capture target
is the configured auxiliary (DMD) display when set and non-empty, else
the configured background display when set and non-empty, else the
primary display. -/
theorem capture_priority_and_fallback (dmd bg : String) (n : Nat) :
    (stripWS dmd = "" → stripWS bg = "" →
      captureScreenshot dmd bg n = CaptureChoice.primary) ∧
    (∀ i : Int, stripWS dmd ≠ "" → pyInt (stripWS dmd) = some i →
      (n : Int) ≤ i → captureScreenshot dmd bg n = CaptureChoice.primary) ∧
    (∀ i : Int, stripWS dmd ≠ "" → pyInt (stripWS dmd) = some i →
      0 ≤ i → i < (n : Int) →
      captureScreenshot dmd bg n = CaptureChoice.monitorIdx i.toNat) ∧
    (∀ i : Int, stripWS dmd = "" → stripWS bg ≠ "" → pyInt (stripWS bg) = some i →
      (n : Int) ≤ i → captureScreenshot dmd bg n = CaptureChoice.primary) ∧
    (∀ i : Int, stripWS dmd = "" → stripWS bg ≠ "" → pyInt (stripWS bg) = some i →
      0 ≤ i → i < (n : Int) →
      captureScreenshot dmd bg n = CaptureChoice.monitorIdx i.toNat) := by
  refine ⟨?_, ?_, ?_, ?_, ?_⟩
  · intro h1 h2
    simp [captureScreenshot, h1, h2]
  · intro i h1 h2 h3
    simp [captureScreenshot, h1, h2, pickMonitor, not_lt.mpr h3]
  · intro i h1 h2 h3 h4
    simp [captureScreenshot, h1, h2, pickMonitor, h3, h4]
  · intro i h1 h2 h3 h4
    simp [captureScreenshot, h1, h2, h3, pickMonitor, not_lt.mpr h4]
  · intro i h1 h2 h3 h4 h5
    simp [captureScreenshot, h1, h2, h3, pickMonitor, h4, h5]

theorem capture_priority_and_fallback_witness :
    captureScreenshot " 1 " "0" 3 = CaptureChoice.monitorIdx 1 := by
  have h := (capture_priority_and_fallback " 1 " "0" 3).2.2.1 1 (by decide)
    (by decide) (by decide) (by decide)
  simpa using h

end ScoreTracker
